import Mathlib

/-!
Shallow embedding of the Standards Agents API (srinivasrowdur/AgnoAgentAPI).

The embedded code is `agents.py` (the mode dispatch table `TEAM_INSTRUCTIONS`
and the module-level initialization) and `main.py` (the FastAPI route
handlers `/safety/ask`, `/quality/ask`, `/team/ask`, `/health`, `/config`).
Handlers are modelled as pure functions from an explicit state (the mutable
module-level agent objects) and a parsed request to a result together with
the successor state; the delegated agent run (`Agent.run` / `Team.run` of
the external agno framework) is an oracle parameter of type
`String → Except String String` (error message, or the `.content` of the
run response).
-/

namespace AgnoAgentAPI

/-- One value of `TEAM_INSTRUCTIONS` in `agents.py`: a dict with keys
`"instructions"` (a list of directive strings) and `"description"`. -/
structure Bundle where
  instructions : List String
  description : String
deriving Repr, DecidableEq

/-- From `agents.py` lines 80-87: `collaborate_instructions`. -/
def collaborate_instructions : List String :=
  [ "First determine whether the question is primarily about safety standards or quality standards.",
    "For safety questions (workplace safety, hazard prevention, fire safety, electrical safety, etc.), primarily rely on the Safety Standards Agent.",
    "For quality questions (quality assurance, cross-contamination prevention, personnel hygiene, etc.), primarily rely on the Quality Standards Agent.",
    "Synthesize a comprehensive response based on contributions from all experts.",
    "Always identify which expert provided which information in your response.",
    "If the question is completely unrelated to either safety or quality standards, respond that you can only answer questions related to safety and quality standards." ]

/-- From `agents.py` lines 89-96: `route_instructions`. -/
def route_instructions : List String :=
  [ "Analyze the user's question to determine if it's about safety standards or quality standards.",
    "If the question is about safety protocols, workplace safety, hazard prevention, fire safety, electrical safety, noise standards, fall prevention, etc., route to the Safety Standards Agent.",
    "If the question is about quality assurance, quality control, cross-contamination prevention, personnel hygiene, utilities quality, etc., route to the Quality Standards Agent.",
    "If the question could apply to both domains, prioritize routing based on the most relevant expertise needed.",
    "Always provide a brief explanation of why you're routing to a particular agent before routing.",
    "If the question is completely unrelated to either safety or quality standards, respond that you can only answer questions related to safety and quality standards." ]

/-- From `agents.py` lines 98-105: `coordinate_instructions`. -/
def coordinate_instructions : List String :=
  [ "Break down the user's question into specific sub-tasks for each relevant team member.",
    "Delegate safety-related aspects (workplace safety, hazard prevention, fire safety, etc.) to the Safety Standards Agent.",
    "Delegate quality-related aspects (quality assurance, hygiene, contamination prevention, etc.) to the Quality Standards Agent.",
    "Synthesize the responses from each team member into a cohesive answer.",
    "Ensure the final response is comprehensive and addresses all aspects of the question.",
    "If the question is completely unrelated to either safety or quality standards, respond that you can only answer questions related to safety and quality standards." ]

/-- From `agents.py` lines 111, 115, 119: the three description strings. -/
def collaborate_description : String :=
  "You are a collaborative team where all members work on the same task to create comprehensive responses."

def route_description : String :=
  "You are a router that directs questions to the appropriate standards agent."

def coordinate_description : String :=
  "You are a coordinator that delegates tasks to team members and synthesizes their outputs."

/-- From `agents.py` lines 108-121: the mode dispatch table `TEAM_INSTRUCTIONS`,
a dict literal keyed by the three mode strings, in insertion order. -/
def TEAM_INSTRUCTIONS : List (String × Bundle) :=
  [ ("collaborate", ⟨collaborate_instructions, collaborate_description⟩),
    ("route", ⟨route_instructions, route_description⟩),
    ("coordinate", ⟨coordinate_instructions, coordinate_description⟩) ]

/-- Python truthiness of an `Optional[str]` value: `None` and `""` are falsy. -/
def strTruthy : Option String → Bool
  | none => false
  | some s => !(s == "")

/-- Python `str()` rendering of an `Optional[str]` inside an f-string:
`None` renders as `"None"`, a string renders as itself. -/
def pyStrOfOpt : Option String → String
  | none => "None"
  | some s => s

/-- Value of `str()` on a starlette `HTTPException` (its `__str__` is
`f"{self.status_code}: {self.detail}"`); this is the value of `str(e)` in
`except Exception as e` when `e` is the handler's own `HTTPException`. -/
def httpExcStr (status : Nat) (detail : String) : String :=
  toString status ++ ": " ++ detail

/-- The outcome a route handler hands to FastAPI: either the dict
`{"response": content}` or an `HTTPException(status_code, detail)`. -/
inductive HandlerResult where
  | ok (response : String)
  | error (status : Nat) (detail : String)
deriving Repr, DecidableEq

/-- The HTTP status of a handler outcome (a plain `return` is a 200). -/
def HandlerResult.status : HandlerResult → Nat
  | .ok _ => 200
  | .error s _ => s

/-- The `detail` field of the error body, when the outcome is an error. -/
def HandlerResult.detail : HandlerResult → Option String
  | .ok _ => none
  | .error _ d => some d

/-- From `main.py` lines 30-32: `QueryRequest` (pydantic). `model_id` is
`Optional[str] = None`. -/
structure QueryRequest where
  query : String
  model_id : Option String
deriving Repr, DecidableEq

/-- From `main.py` lines 34-37: `TeamQueryRequest` (pydantic). `team_mode` is
`Optional[str] = "collaborate"`, so it is `none` only when the JSON body
carries an explicit `null`. -/
structure TeamQueryRequest where
  query : String
  model_id : Option String
  team_mode : Option String
deriving Repr, DecidableEq

/-- Pydantic parsing of `TeamQueryRequest` from a JSON body. The outer
`Option` of each argument is field presence; the inner one is JSON `null`
versus a string. An absent `model_id` defaults to `None`, an absent
`team_mode` defaults to the string `"collaborate"`. -/
def mkTeamQueryRequest (query : String) (model_id : Option (Option String))
    (team_mode : Option (Option String)) : TeamQueryRequest :=
  ⟨query,
   match model_id with
   | none => none
   | some v => v,
   match team_mode with
   | none => some "collaborate"
   | some v => v⟩

/-- The mutable fields of a single `Agent` instance (`SafetyAgent` or
`QualityAgent`) that the handlers touch: only `model`, recorded by the
`OpenAIChat` id it was constructed with. -/
structure AgentState where
  model : String
deriving Repr, DecidableEq

/-- The mutable fields of the `Team` instance `TeamAgent` that the
`/team/ask` handler touches: `model` (its `OpenAIChat` id), `mode`,
`instructions` and `description`. -/
structure TeamState where
  model : String
  mode : String
  instructions : List String
  description : String
deriving Repr, DecidableEq

/-- From `agents.py` lines 124-136: the `Team` as constructed at process start
(default model `"o3-mini"`, collaborate mode and texts). -/
def initialTeamState : TeamState :=
  ⟨"o3-mini", "collaborate", collaborate_instructions, collaborate_description⟩

/-- Result of running a `/safety/ask` or `/quality/ask` handler: the HTTP
outcome, the agent state after the request, and how many times the
delegated `Agent.run` was invoked. -/
structure AgentOutcome where
  result : HandlerResult
  state : AgentState
  runCalls : Nat
deriving Repr, DecidableEq

/-- Result of running the `/team/ask` handler: the HTTP outcome, the team
state after the request, and how many times `TeamAgent.run` was invoked. -/
structure TeamOutcome where
  result : HandlerResult
  state : TeamState
  runCalls : Nat
deriving Repr, DecidableEq

/-- From `main.py` lines 85-101: `ask_safety_agent`. `available` is the truth of
`SafetyAgent` (it is `None` exactly when initialization failed); `run` is
the external `SafetyAgent.run`, returning the response `.content` or the
message of the exception it raises. The 503 is raised before the `try`
block; any exception inside it — including from `run` — becomes a 500 with
`str(e)` as detail. -/
def ask_safety_agent (available : Bool) (run : String → Except String String)
    (st : AgentState) (req : QueryRequest) : AgentOutcome :=
  if !available then
    ⟨.error 503 "Safety Agent is not available due to LanceDB connection issues", st, 0⟩
  else
    let st1 := match req.model_id with
      | some mid => if mid == "" then st else { st with model := mid }
      | none => st
    match run req.query with
    | .ok content => ⟨.ok content, st1, 1⟩
    | .error e => ⟨.error 500 e, st1, 1⟩

/-- From `main.py` lines 104-120: `ask_quality_agent`; identical to the safety
handler except for the agent it delegates to and the 503 message. -/
def ask_quality_agent (available : Bool) (run : String → Except String String)
    (st : AgentState) (req : QueryRequest) : AgentOutcome :=
  if !available then
    ⟨.error 503 "Quality Agent is not available due to LanceDB connection issues", st, 0⟩
  else
    let st1 := match req.model_id with
      | some mid => if mid == "" then st else { st with model := mid }
      | none => st
    match run req.query with
    | .ok content => ⟨.ok content, st1, 1⟩
    | .error e => ⟨.error 500 e, st1, 1⟩

/-- From `main.py` line 141: the detail of the `HTTPException(400, ...)` raised
for a mode not in `TEAM_INSTRUCTIONS` (an f-string over the request's
`team_mode` and the joined dict keys). -/
def invalidModeDetail (team_mode : Option String) : String :=
  "Invalid team mode: " ++ pyStrOfOpt team_mode ++
    ". Must be one of: collaborate, route, coordinate"

/-- From `main.py` lines 123-147: `ask_team_agent`. The 503 check precedes the
`try` block. Inside it, a truthy `model_id` overwrites `TeamAgent.model`
first; then `request.team_mode in TEAM_INSTRUCTIONS` decides between
installing the bundle and raising `HTTPException(400, ...)`. That 400 is
raised inside the `try`, so the `except Exception` clause catches it and
re-raises `HTTPException(500, str(e))`; likewise any exception from
`TeamAgent.run`. -/
def ask_team_agent (available : Bool) (run : String → Except String String)
    (st : TeamState) (req : TeamQueryRequest) : TeamOutcome :=
  if !available then
    ⟨.error 503 "Team Agent is not available due to LanceDB connection issues", st, 0⟩
  else
    let st1 := match req.model_id with
      | some mid => if mid == "" then st else { st with model := mid }
      | none => st
    match req.team_mode with
    | some m =>
      match TEAM_INSTRUCTIONS.lookup m with
      | some b =>
        let st2 := { st1 with
          mode := m
          instructions := b.instructions
          description := b.description }
        match run req.query with
        | .ok content => ⟨.ok content, st2, 1⟩
        | .error e => ⟨.error 500 e, st2, 1⟩
      | none =>
        ⟨.error 500 (httpExcStr 400 (invalidModeDetail req.team_mode)), st1, 0⟩
    | none =>
      ⟨.error 500 (httpExcStr 400 (invalidModeDetail req.team_mode)), st1, 0⟩

/-- The module-level names of `agents.py` that `main.py` consumes:
`are_agents_available()`, the keys of the `AGENTS` dict, and the keys of
`TEAM_INSTRUCTIONS` (values are in `TEAM_INSTRUCTIONS` above; only the
shape matters for startup). -/
structure AgentsModule where
  agentsAvailable : Bool
  AGENTS_keys : List String
  TEAM_INSTRUCTIONS_keys : List String
deriving Repr, DecidableEq

/-- Executing the `agents.py` module body. Lines 18-22: the check
`if not lance_url or not lance_api_key` raises `ValueError` *outside* any
`try`, so a missing or empty `LanceURL`/`LANCE_API_KEY` aborts the import
(`Except.error`). Lines 28-163: the remaining initialization sits in a
`try`/`except Exception`; `externalInitOk` abstracts whether the external
constructors (`LanceDb`, `Agent`, `Team`, ...) succeed. On success the
module exports the three agents and `are_agents_available() = True`; the
`except` branch exports empty dicts, `None` agents and `False`. -/
def agents_module_init (lanceUrl lanceApiKey : Option String)
    (externalInitOk : Bool) : Except String AgentsModule :=
  if !(strTruthy lanceUrl) || !(strTruthy lanceApiKey) then
    .error "LanceDB cloud configuration is incomplete. Please check your .env file for LanceURL and LANCE_API_KEY."
  else if externalInitOk then
    .ok ⟨true, ["safety", "quality", "team"], ["collaborate", "route", "coordinate"]⟩
  else
    .ok ⟨false, [], []⟩

/-- From `main.py` lines 39-72: `from agents import ...` wrapped in
`try`/`except ImportError`/`except Exception`. Both `except` branches
install empty `AGENTS` and `TEAM_INSTRUCTIONS`, `None` agents, and an
`are_agents_available` returning `False`, so the import never escapes and
the process always starts. -/
def main_load_agents (importResult : Except String AgentsModule) : AgentsModule :=
  match importResult with
  | .ok m => m
  | .error _ => ⟨false, [], []⟩

/-- The response body of `GET /health` in `main.py`. -/
structure HealthResponse where
  status : String
  agents_status : String
  available_agents : List String
deriving Repr, DecidableEq

/-- From `main.py` lines 150-159: `health_check`. `agents_status` comes from
`are_agents_available()`; `available_agents` is `list(AGENTS.keys())` when
the dict is truthy (non-empty) and `[]` otherwise. The handler only reads
module state, so it returns it unchanged. -/
def health_check (m : AgentsModule) : HealthResponse × AgentsModule :=
  (⟨"healthy",
    if m.agentsAvailable then "available" else "unavailable",
    if m.AGENTS_keys.isEmpty then [] else m.AGENTS_keys⟩, m)

/-- The process environment variables `get_config` reads. -/
structure Env where
  LanceURL : Option String
  LANCE_API_KEY : Option String
  OPENAI_API_KEY : Option String
deriving Repr, DecidableEq

/-- The response body of `GET /config` in `main.py`. -/
structure ConfigResponse where
  lance_url : String
  lance_api_key_set : Bool
  openai_api_key_set : Bool
  agents_available : Bool
deriving Repr, DecidableEq

/-- From `main.py` lines 75-82: `get_config`. `os.environ.get("LanceURL",
"Not set")` defaults only an unset variable; `bool(...)` on the keys is
Python truthiness. The handler only reads the environment and module
state, returning both unchanged. -/
def get_config (env : Env) (m : AgentsModule) :
    ConfigResponse × (Env × AgentsModule) :=
  (⟨(env.LanceURL).getD "Not set",
    strTruthy env.LANCE_API_KEY,
    strTruthy env.OPENAI_API_KEY,
    m.agentsAvailable⟩, (env, m))

/-- The Python membership test `request.team_mode in TEAM_INSTRUCTIONS`
performed by `ask_team_agent`: `None` is in no dict; a string is a member
exactly when it is a key of the table. -/
def teamModeKnown : Option String → Bool
  | none => false
  | some m => (TEAM_INSTRUCTIONS.lookup m).isSome

/-- The module state `main.py` ends up with after importing `agents.py`
under the given environment and external-initialization outcome. -/
def startupModule (lanceUrl lanceApiKey : Option String)
    (externalInitOk : Bool) : AgentsModule :=
  main_load_agents (agents_module_init lanceUrl lanceApiKey externalInitOk)

/-- Helper: the startup pipeline yields the full module exactly when both
environment values are truthy and external initialization succeeds, and the
degraded module otherwise. -/
theorem startupModule_eq (u k : Option String) (e : Bool) :
    startupModule u k e =
      if strTruthy u && strTruthy k && e then
        ⟨true, ["safety", "quality", "team"], ["collaborate", "route", "coordinate"]⟩
      else ⟨false, [], []⟩ := by
  cases hu : strTruthy u <;> cases hk : strTruthy k <;> cases e <;>
    simp [startupModule, agents_module_init, main_load_agents, hu, hk]

set_option maxRecDepth 8000 in
/-- C2: for each of the three mode strings `collaborate`, `route` and
`coordinate`, the dispatch table `TEAM_INSTRUCTIONS` holds exactly one
bundle, and that bundle has a non-empty description and a non-empty
instruction sequence. -/
theorem team_instructions_total_nonempty (m : String)
    (h : m ∈ ["collaborate", "route", "coordinate"]) :
    ∃ b : Bundle, TEAM_INSTRUCTIONS.lookup m = some b ∧
      b.description ≠ "" ∧ b.instructions ≠ [] ∧
      TEAM_INSTRUCTIONS.countP (fun p => p.1 == m) = 1 := by
  fin_cases h
  · exact ⟨⟨collaborate_instructions, collaborate_description⟩,
      by decide, by decide, by decide, by decide⟩
  · exact ⟨⟨route_instructions, route_description⟩,
      by decide, by decide, by decide, by decide⟩
  · exact ⟨⟨coordinate_instructions, coordinate_description⟩,
      by decide, by decide, by decide, by decide⟩

/-- Witness for C2 at the concrete mode `route`. -/
theorem team_instructions_total_nonempty_witness :
    "route" ∈ ["collaborate", "route", "coordinate"] ∧
      ∃ b : Bundle, TEAM_INSTRUCTIONS.lookup "route" = some b ∧
        b.description ≠ "" ∧ b.instructions ≠ [] ∧
        TEAM_INSTRUCTIONS.countP (fun p => p.1 == "route") = 1 :=
  ⟨by decide, team_instructions_total_nonempty "route" (by decide)⟩

/-- C3: `GET /health` reflects initialization truthfully - when
initialization failed (a missing environment value or a failing external
constructor), `agents_status` is `unavailable` and `available_agents` is
empty; when it succeeded, `agents_status` is `available` and
`available_agents` lists the three initialized agents. -/
theorem health_reflects_availability (u k : Option String) (e : Bool) :
    (health_check (startupModule u k e)).1 =
      if strTruthy u && strTruthy k && e then
        ⟨"healthy", "available", ["safety", "quality", "team"]⟩
      else ⟨"healthy", "unavailable", []⟩ := by
  rw [startupModule_eq]
  cases hu : strTruthy u <;> cases hk : strTruthy k <;> cases e <;>
    simp [health_check]

/-- C8: `GET /health` and `GET /config` are idempotent - they do not
modify any state, and a repeated call on the state returned by the first
call produces an identical response body. -/
theorem health_config_idempotent (env : Env) (m : AgentsModule) :
    (health_check (health_check m).2).1 = (health_check m).1 ∧
    (health_check m).2 = m ∧
    (get_config (get_config env m).2.1 (get_config env m).2.2).1 =
      (get_config env m).1 ∧
    (get_config env m).2 = (env, m) :=
  ⟨rfl, rfl, rfl, rfl⟩

/-- C10: `GET /health` returns the constant top-level `status` field
`"healthy"` in every module state, including the degraded one where no
agents are available. -/
theorem health_status_always_healthy (m : AgentsModule) :
    (health_check m).1.status = "healthy" := rfl

/-- C1: evaluating the `/team/ask` handler at the failing input
`{"query": "q", "team_mode": "bogus"}` with the team available. The claim
and spec say HTTP 400, and indeed the handler raises
`HTTPException(400, ...)`; but that raise sits inside the `try` block, so
the handler's own `except Exception` clause catches it and re-raises
`HTTPException(500, str(e))`: the actual HTTP status is 500. The other
half of the claim holds: the team run - and hence neither reasoning
agent - is invoked. -/
theorem team_ask_bogus_mode_gives_500_no_run :
    (ask_team_agent true (fun _ => Except.ok "answer") initialTeamState
        (mkTeamQueryRequest "q" none (some (some "bogus")))).result.status = 500 ∧
    (ask_team_agent true (fun _ => Except.ok "answer") initialTeamState
        (mkTeamQueryRequest "q" none (some (some "bogus")))).runCalls = 0 :=
  ⟨rfl, rfl⟩

/-- C4 counterexample: the request
`{"query": "q", "model_id": "gpt-4o", "team_mode": "bogus"}` against the
freshly initialized team. The claim says the request fails with a client
error and that no shared coordinator state - including the model
reference - is modified; in fact the handler assigns `TeamAgent.model`
before the mode check, and the error surfaced is a 500, not a 4xx. -/
theorem team_ask_unknown_mode_counterexample :
    (ask_team_agent true (fun _ => Except.ok "x") initialTeamState
        ⟨"q", some "gpt-4o", some "bogus"⟩).state.model ≠ initialTeamState.model ∧
    ¬(400 ≤ (ask_team_agent true (fun _ => Except.ok "x") initialTeamState
          ⟨"q", some "gpt-4o", some "bogus"⟩).result.status ∧
        (ask_team_agent true (fun _ => Except.ok "x") initialTeamState
          ⟨"q", some "gpt-4o", some "bogus"⟩).result.status < 500) := by
  decide

/-- C4 (amended): on a `/team/ask` request whose `team_mode` is unknown,
the request fails with HTTP 500 (the handler's 400 is swallowed by its
blanket `except`), the team run is never invoked, and the coordinator's
mode, instructions and description are unmodified; however, a truthy
`model_id` in the same request does overwrite the coordinator's model
reference before the error is returned. -/
theorem team_ask_unknown_mode_no_partial_run
    (run : String → Except String String) (st : TeamState)
    (req : TeamQueryRequest) (h : teamModeKnown req.team_mode = false) :
    (ask_team_agent true run st req).result.status = 500 ∧
    (ask_team_agent true run st req).runCalls = 0 ∧
    (ask_team_agent true run st req).state.mode = st.mode ∧
    (ask_team_agent true run st req).state.instructions = st.instructions ∧
    (ask_team_agent true run st req).state.description = st.description ∧
    (ask_team_agent true run st req).state.model =
      (match req.model_id with
       | some mid => if mid == "" then st.model else mid
       | none => st.model) := by
  rcases req with ⟨q, mid, tm⟩
  rcases tm with _ | m
  · rcases mid with _ | s
    · simp [ask_team_agent, HandlerResult.status]
    · cases hs : s == "" <;>
        simp [ask_team_agent, HandlerResult.status, hs]
  · have hl : TEAM_INSTRUCTIONS.lookup m = none := by
      rcases hcase : TEAM_INSTRUCTIONS.lookup m with _ | b
      · rfl
      · simp [teamModeKnown, hcase] at h
    rcases mid with _ | s
    · simp [ask_team_agent, HandlerResult.status, hl]
    · cases hs : s == "" <;>
        simp [ask_team_agent, HandlerResult.status, hl, hs]

/-- Witness for the amended C4 at a request carrying both a model override
and an unknown mode. -/
theorem team_ask_unknown_mode_no_partial_run_witness :
    teamModeKnown (some "bogus") = false ∧
    ((ask_team_agent true (fun _ => Except.ok "x") initialTeamState
        ⟨"q", some "gpt-4o", some "bogus"⟩).result.status = 500 ∧
      (ask_team_agent true (fun _ => Except.ok "x") initialTeamState
        ⟨"q", some "gpt-4o", some "bogus"⟩).runCalls = 0 ∧
      (ask_team_agent true (fun _ => Except.ok "x") initialTeamState
        ⟨"q", some "gpt-4o", some "bogus"⟩).state.mode = initialTeamState.mode ∧
      (ask_team_agent true (fun _ => Except.ok "x") initialTeamState
        ⟨"q", some "gpt-4o", some "bogus"⟩).state.instructions = initialTeamState.instructions ∧
      (ask_team_agent true (fun _ => Except.ok "x") initialTeamState
        ⟨"q", some "gpt-4o", some "bogus"⟩).state.description = initialTeamState.description ∧
      (ask_team_agent true (fun _ => Except.ok "x") initialTeamState
        ⟨"q", some "gpt-4o", some "bogus"⟩).state.model =
        (match some "gpt-4o" with
         | some mid => if mid == "" then initialTeamState.model else mid
         | none => initialTeamState.model)) :=
  ⟨rfl, team_ask_unknown_mode_no_partial_run (fun _ => Except.ok "x")
    initialTeamState ⟨"q", some "gpt-4o", some "bogus"⟩ rfl⟩

/-- C5: while an agent is unavailable (its module-level name is `None`
after failed initialization), `/safety/ask`, `/quality/ask` and
`/team/ask` each answer HTTP 503 with a non-empty explanatory `detail`
field, for every request and every run oracle. -/
theorem unavailable_agent_returns_503
    (runS runQ runT : String → Except String String)
    (stS stQ : AgentState) (stT : TeamState)
    (req : QueryRequest) (treq : TeamQueryRequest) :
    ((ask_safety_agent false runS stS req).result =
        .error 503 "Safety Agent is not available due to LanceDB connection issues" ∧
      (ask_safety_agent false runS stS req).result.detail ≠ some "") ∧
    ((ask_quality_agent false runQ stQ req).result =
        .error 503 "Quality Agent is not available due to LanceDB connection issues" ∧
      (ask_quality_agent false runQ stQ req).result.detail ≠ some "") ∧
    ((ask_team_agent false runT stT treq).result =
        .error 503 "Team Agent is not available due to LanceDB connection issues" ∧
      (ask_team_agent false runT stT treq).result.detail ≠ some "") := by
  refine ⟨⟨rfl, ?_⟩, ⟨rfl, ?_⟩, ⟨rfl, ?_⟩⟩ <;> simp [ask_safety_agent,
    ask_quality_agent, ask_team_agent, HandlerResult.detail]

/-- C6: when a required environment value (`LanceURL`, `LANCE_API_KEY`) is
missing or empty, or external agent initialization raises, the import
guard in `main.py` swallows the failure, the process starts, and `/health`
and `/config` are served reporting unavailability. -/
theorem degraded_startup_serves_endpoints (u k : Option String) (e : Bool)
    (env : Env)
    (h : strTruthy u = false ∨ strTruthy k = false ∨ e = false) :
    (health_check (startupModule u k e)).1 = ⟨"healthy", "unavailable", []⟩ ∧
    (get_config env (startupModule u k e)).1.agents_available = false := by
  have hc : (strTruthy u && strTruthy k && e) = false := by
    rcases h with h | h | h <;> simp [h]
  simp [startupModule_eq, hc, health_check, get_config]

/-- Witness for C6 with `LanceURL` unset. -/
theorem degraded_startup_serves_endpoints_witness :
    (strTruthy none = false ∨ strTruthy (some "key") = false ∨ true = false) ∧
    ((health_check (startupModule none (some "key") true)).1 =
        ⟨"healthy", "unavailable", []⟩ ∧
      (get_config ⟨none, some "key", none⟩
          (startupModule none (some "key") true)).1.agents_available = false) :=
  ⟨Or.inl rfl, degraded_startup_serves_endpoints none (some "key") true
    ⟨none, some "key", none⟩ (Or.inl rfl)⟩

/-- C7: when the delegated run raises (the oracle returns the exception
message `e` on the request's query), each of the three ask endpoints
surfaces HTTP 500 whose `detail` is exactly that message, invokes the run
exactly once (no retry), and returns no success body. -/
theorem run_exception_surfaced_as_500
    (run : String → Except String String) (q e : String) (mid : Option String)
    (tm : String) (stS stQ : AgentState) (stT : TeamState)
    (hrun : run q = Except.error e)
    (htm : (TEAM_INSTRUCTIONS.lookup tm).isSome = true) :
    (ask_safety_agent true run stS ⟨q, mid⟩).result = .error 500 e ∧
    (ask_safety_agent true run stS ⟨q, mid⟩).runCalls = 1 ∧
    (ask_quality_agent true run stQ ⟨q, mid⟩).result = .error 500 e ∧
    (ask_quality_agent true run stQ ⟨q, mid⟩).runCalls = 1 ∧
    (ask_team_agent true run stT ⟨q, mid, some tm⟩).result = .error 500 e ∧
    (ask_team_agent true run stT ⟨q, mid, some tm⟩).runCalls = 1 := by
  rcases hb : TEAM_INSTRUCTIONS.lookup tm with _ | b
  · simp [hb] at htm
  · rcases mid with _ | s
    · simp [ask_safety_agent, ask_quality_agent, ask_team_agent, hrun, hb]
    · cases hs : s == "" <;>
        simp [ask_safety_agent, ask_quality_agent, ask_team_agent, hrun, hb, hs]

/-- Witness for C7 with a run oracle that raises `boom` and mode `route`. -/
theorem run_exception_surfaced_as_500_witness :
    ((fun _ : String => (Except.error "boom" : Except String String)) "q" =
        Except.error "boom") ∧
    ((TEAM_INSTRUCTIONS.lookup "route").isSome = true) ∧
    ((ask_safety_agent true (fun _ => Except.error "boom") ⟨"o3-mini"⟩
        ⟨"q", none⟩).result = .error 500 "boom" ∧
      (ask_safety_agent true (fun _ => Except.error "boom") ⟨"o3-mini"⟩
        ⟨"q", none⟩).runCalls = 1 ∧
      (ask_quality_agent true (fun _ => Except.error "boom") ⟨"o3-mini"⟩
        ⟨"q", none⟩).result = .error 500 "boom" ∧
      (ask_quality_agent true (fun _ => Except.error "boom") ⟨"o3-mini"⟩
        ⟨"q", none⟩).runCalls = 1 ∧
      (ask_team_agent true (fun _ => Except.error "boom") initialTeamState
        ⟨"q", none, some "route"⟩).result = .error 500 "boom" ∧
      (ask_team_agent true (fun _ => Except.error "boom") initialTeamState
        ⟨"q", none, some "route"⟩).runCalls = 1) :=
  ⟨rfl, rfl, run_exception_surfaced_as_500 (fun _ => Except.error "boom")
    "q" "boom" none "route" ⟨"o3-mini"⟩ ⟨"o3-mini"⟩ initialTeamState rfl rfl⟩

set_option maxRecDepth 8000 in
/-- C9: a `/team/ask` request whose JSON body omits the `team_mode` field
is processed under the pydantic default `collaborate` - the collaborate
bundle is installed on the team - and on a successful run the `response`
field is the run's content, verbatim. -/
theorem team_mode_omitted_defaults_collaborate
    (q ans : String) (mf : Option (Option String))
    (run : String → Except String String) (st : TeamState)
    (hrun : run q = Except.ok ans) :
    (ask_team_agent true run st (mkTeamQueryRequest q mf none)).result = .ok ans ∧
    (ask_team_agent true run st (mkTeamQueryRequest q mf none)).state.mode =
      "collaborate" ∧
    (ask_team_agent true run st (mkTeamQueryRequest q mf none)).state.instructions =
      collaborate_instructions ∧
    (ask_team_agent true run st (mkTeamQueryRequest q mf none)).state.description =
      collaborate_description ∧
    (ask_team_agent true run st (mkTeamQueryRequest q mf none)).runCalls = 1 := by
  have hl : TEAM_INSTRUCTIONS.lookup "collaborate" =
      some ⟨collaborate_instructions, collaborate_description⟩ := by decide
  rcases mf with _ | mv
  · simp [mkTeamQueryRequest, ask_team_agent, hl, hrun]
  · rcases mv with _ | s
    · simp [mkTeamQueryRequest, ask_team_agent, hl, hrun]
    · cases hs : s == "" <;>
        simp [mkTeamQueryRequest, ask_team_agent, hl, hrun, hs]

/-- Witness for C9 with both optional fields omitted and a run returning
`answer`. -/
theorem team_mode_omitted_defaults_collaborate_witness :
    ((fun _ : String => (Except.ok "answer" : Except String String)) "q" =
        Except.ok "answer") ∧
    ((ask_team_agent true (fun _ => Except.ok "answer") initialTeamState
        (mkTeamQueryRequest "q" none none)).result = .ok "answer" ∧
      (ask_team_agent true (fun _ => Except.ok "answer") initialTeamState
        (mkTeamQueryRequest "q" none none)).state.mode = "collaborate" ∧
      (ask_team_agent true (fun _ => Except.ok "answer") initialTeamState
        (mkTeamQueryRequest "q" none none)).state.instructions =
        collaborate_instructions ∧
      (ask_team_agent true (fun _ => Except.ok "answer") initialTeamState
        (mkTeamQueryRequest "q" none none)).state.description =
        collaborate_description ∧
      (ask_team_agent true (fun _ => Except.ok "answer") initialTeamState
        (mkTeamQueryRequest "q" none none)).runCalls = 1) :=
  ⟨rfl, team_mode_omitted_defaults_collaborate "q" "answer" none
    (fun _ => Except.ok "answer") initialTeamState rfl⟩

end AgnoAgentAPI
